import Mathlib

/-!
Shallow embedding of the two-layer UDP transport stack (l2sap.c / l4sap.c,
both concatenated into src/maze.c), together with theorems checking the
natural-language specification against it.

The L4 functions perform network I/O through the L2 layer; we model each
call to l2sap_recvfrom_timeout as consuming one event from an event stream
(function from an index to an event), and each call to l2sap_sendto as
appending the transmitted frame to an output list.  State (send_seqno,
expected_seqno, the pending slot) is threaded explicitly.
-/

namespace MazeNet

/-- Modelled from the spec: the header files l2sap.h / l4sap.h are not in
src/.  §3 fixes L2Headersize = 6. -/
def L2Headersize : Nat := 6

/-- Modelled from the spec: L2Framesize is implementation-chosen and must
satisfy L2Framesize ≥ L2Headersize + L2Payloadsize; we fix a representative
value below 65536 so that the 16-bit length field round-trips. -/
def L2Framesize : Nat := 256

/-- L2Payloadsize = L2Framesize − L2Headersize (spec §3). -/
def L2Payloadsize : Nat := L2Framesize - L2Headersize

/-- Modelled from the spec: L4Headersize = 4 (spec §3). -/
def L4Headersize : Nat := 4

/-- L4Framesize = L2Payloadsize (spec §3). -/
def L4Framesize : Nat := L2Payloadsize

/-- L4Payloadsize = L4Framesize − L4Headersize (spec §3). -/
def L4Payloadsize : Nat := L4Framesize - L4Headersize

/-- Modelled from the spec: the L4 frame type is a closed tag set
{DATA, ACK, RESET} carried in one byte; the numeric values live in the
missing header, so distinct representative byte values are chosen. -/
def L4_DATA : Nat := 1

/-- Modelled from the spec: see L4_DATA. -/
def L4_ACK : Nat := 2

/-- Modelled from the spec: see L4_DATA. -/
def L4_RESET : Nat := 3

/-- The four one-byte fields of struct L4Header (spec §3; fields read and
written byte-wise in l4sap.c). -/
structure L4Header where
  type : Nat
  seqno : Nat
  ackno : Nat
  mbz : Nat
deriving DecidableEq, Repr

/-- Read the four header bytes from the start of a received byte list,
mirroring the cast of the receive buffer to struct L4Header*. -/
def parseL4Header (bytes : List Nat) : L4Header :=
  ⟨bytes.getD 0 0, bytes.getD 1 0, bytes.getD 2 0, bytes.getD 3 0⟩

/-- A frame handed to l2sap_sendto by the L4 layer: header plus payload
bytes. -/
structure L4Frame where
  hdr : L4Header
  payload : List Nat
deriving DecidableEq, Repr

/-- The C expression 1 - x evaluated on a one-byte field and stored back
into a one-byte field: (1 - x) reduced modulo 256.  For x ∈ {0,1} this is
the alternating-bit toggle 1 - x. -/
def ackOf (x : Nat) : Nat := (1 + 256 - x % 256) % 256

/-- The pending slot: pending_header, pending_pl_buffer and pending_pl_len
of struct L4SAP (pending_pl_len is the length of the stored list). -/
structure PendingSlot where
  hdr : L4Header
  payload : List Nat
deriving DecidableEq, Repr

/-- The mutable part of struct L4SAP: send_seqno, expected_seqno, and the
pending slot (pending_data flag folded into the Option). -/
structure L4State where
  send_seqno : Nat
  expected_seqno : Nat
  pending : Option PendingSlot
deriving DecidableEq, Repr

/-- Outcome of one l2sap_recvfrom_timeout call as seen by l4sap_send:
a timeout (L2_TIMEOUT), a negative error return, or a datagram whose
payload bytes are delivered. -/
inductive L2Event where
  | timeout
  | errEvent
  | frame (bytes : List Nat)
deriving DecidableEq, Repr

/-- Return value of l4sap_send: the accepted byte count, L4_SEND_FAILED,
or L4_QUIT. -/
inductive L4SendRet where
  | accepted (n : Nat)
  | sendFailed
  | quit
deriving DecidableEq, Repr

/-- Result of a send call: the return value, the final L4 state, and the
frames handed to l2sap_sendto, in order. -/
structure SendOutcome where
  ret : L4SendRet
  st : L4State
  out : List L4Frame
deriving DecidableEq, Repr

/-- Prefix additional transmitted frames onto a send outcome. -/
def addOut (fs : List L4Frame) (o : SendOutcome) : SendOutcome :=
  ⟨o.ret, o.st, fs ++ o.out⟩

/-- The DATA frame l4sap_send builds: type L4_DATA, seqno = send_seqno,
ackno = 0, mbz = 0, then the (truncated) payload. -/
def dataFrame (seqno : Nat) (payload : List Nat) : L4Frame :=
  ⟨⟨L4_DATA, seqno, 0, 0⟩, payload⟩

/-- The ACK frame l4sap.c builds in both send and recv: type L4_ACK,
seqno = 0, mbz = 0, given ackno, empty payload. -/
def ackFrame (ackno : Nat) : L4Frame :=
  ⟨⟨L4_ACK, 0, ackno, 0⟩, []⟩

/-- The stash of an unexpected DATA frame received while waiting for an
ACK (maze.c lines 273-279): written only when the pending slot is empty;
the stored payload length is recv_len − L4Headersize clamped to
L4Payloadsize. -/
def stashState (st : L4State) (h : L4Header) (bytes : List Nat) : L4State :=
  if st.pending.isNone then
    { st with pending := some ⟨h, (bytes.drop L4Headersize).take L4Payloadsize⟩ }
  else st

/-- The retry loop of l4sap_send (maze.c lines 208-282).  Each iteration
transmits the DATA frame, then consumes one receive event: timeout, error
and short frames fall through to the next iteration; RESET returns L4_QUIT;
a matching ACK toggles send_seqno and returns; a mismatched ACK falls
through; a DATA frame is ACKed, stashed into the pending slot when that
slot is empty, and falls through.  fuel is the number of remaining loop
iterations (max_retries = 5 at the top call). -/
def l4sendLoop (ev : Nat → L2Event) (pl : List Nat) (rl : Nat) :
    Nat → Nat → L4State → SendOutcome
  | 0, _, st => ⟨.sendFailed, st, []⟩
  | fuel+1, idx, st =>
    let d := dataFrame st.send_seqno pl
    match ev idx with
    | .timeout => addOut [d] (l4sendLoop ev pl rl fuel (idx+1) st)
    | .errEvent => addOut [d] (l4sendLoop ev pl rl fuel (idx+1) st)
    | .frame bytes =>
      if bytes.length < L4Headersize then
        addOut [d] (l4sendLoop ev pl rl fuel (idx+1) st)
      else
        let h := parseL4Header bytes
        if h.type = L4_RESET then ⟨.quit, st, [d]⟩
        else if h.type = L4_ACK then
          if (h.ackno : Int) = 1 - (st.send_seqno : Int) then
            ⟨.accepted rl, { st with send_seqno := ackOf st.send_seqno }, [d]⟩
          else addOut [d] (l4sendLoop ev pl rl fuel (idx+1) st)
        else if h.type = L4_DATA then
          addOut [d, ackFrame (ackOf h.seqno)]
            (l4sendLoop ev pl rl fuel (idx+1) (stashState st h bytes))
        else addOut [d] (l4sendLoop ev pl rl fuel (idx+1) st)

/-- l4sap_send (maze.c lines 179-286): parameter validation rejects
len ≤ 0 with L4_SEND_FAILED; the payload is truncated to L4Payloadsize;
then the retry loop runs with max_retries = 5. -/
def l4sap_send (st : L4State) (data : List Nat) (len : Int) (ev : Nat → L2Event) :
    SendOutcome :=
  if len ≤ 0 then ⟨.sendFailed, st, []⟩
  else
    let tlen : Nat := min len.toNat L4Payloadsize
    l4sendLoop ev (data.take tlen) tlen 5 0 st

/-- Return value of l4sap_recv: delivered payload bytes (the returned int
is their count), L4_QUIT, or -1. -/
inductive L4RecvRet where
  | delivered (bytes : List Nat)
  | quit
  | errRet
deriving DecidableEq, Repr

/-- Result of a recv call: the return value (none while the loop is still
waiting for further events), the final state, and the frames handed to
l2sap_sendto. -/
structure RecvOutcome where
  ret : Option L4RecvRet
  st : L4State
  out : List L4Frame
deriving DecidableEq, Repr

/-- Outcome of one l2sap_recvfrom_timeout call as seen by l4sap_recv.
The L2-error return (-1) is not modelled here: in the C source the check
recv_len < sizeof(struct L4Header) compares an int against a size_t, so a
negative recv_len is converted to a huge unsigned value and escapes the
check, after which behavior depends on stale buffer bytes; no claim under
analysis concerns that path. -/
inductive RecvEvent where
  | timeout
  | frame (bytes : List Nat)
deriving DecidableEq, Repr

/-- Prefix additional transmitted frames onto a recv outcome. -/
def addROut (fs : List L4Frame) (o : RecvOutcome) : RecvOutcome :=
  ⟨o.ret, o.st, fs ++ o.out⟩

/-- The network loop of l4sap_recv (maze.c lines 343-398): timeouts and
short frames are skipped; a nonzero mbz drops the frame; RESET returns
L4_QUIT; DATA with the expected seqno is ACKed, delivered (payload_len =
recv_len − L4Headersize bytes, no clamping to the caller length) and
toggles expected_seqno; DATA with the other seqno is re-ACKed and skipped;
stray ACKs are skipped.  fuel bounds how many events we consume; running
out of fuel models the call still blocking. -/
def l4recvLoop (ev : Nat → RecvEvent) :
    Nat → Nat → L4State → RecvOutcome
  | 0, _, st => ⟨none, st, []⟩
  | fuel+1, idx, st =>
    match ev idx with
    | .timeout => l4recvLoop ev fuel (idx+1) st
    | .frame bytes =>
      if bytes.length < L4Headersize then l4recvLoop ev fuel (idx+1) st
      else
        let h := parseL4Header bytes
        if h.mbz ≠ 0 then l4recvLoop ev fuel (idx+1) st
        else if h.type = L4_RESET then ⟨some .quit, st, []⟩
        else if h.type = L4_DATA then
          if h.seqno = st.expected_seqno then
            ⟨some (.delivered (bytes.drop L4Headersize)),
             { st with expected_seqno := ackOf st.expected_seqno },
             [ackFrame (ackOf h.seqno)]⟩
          else addROut [ackFrame (ackOf h.seqno)] (l4recvLoop ev fuel (idx+1) st)
        else l4recvLoop ev fuel (idx+1) st

/-- l4sap_recv (maze.c lines 299-402): parameter validation rejects
len ≤ 0 with -1; a non-empty pending slot is consumed (matching DATA:
copy min(pending_pl_len, len) bytes, ACK, toggle expected_seqno, clear,
return) or duplicate-ACKed and cleared; then the network loop runs. -/
def l4sap_recv (st : L4State) (len : Int) (ev : Nat → RecvEvent) (fuel : Nat) :
    RecvOutcome :=
  if len ≤ 0 then ⟨some .errRet, st, []⟩
  else
    match st.pending with
    | none => l4recvLoop ev fuel 0 st
    | some p =>
      if p.hdr.type = L4_DATA ∧ p.hdr.seqno = st.expected_seqno then
        ⟨some (.delivered (p.payload.take (min p.payload.length len.toNat))),
         { st with expected_seqno := ackOf st.expected_seqno, pending := none },
         [ackFrame (ackOf p.hdr.seqno)]⟩
      else
        addROut [ackFrame (ackOf p.hdr.seqno)]
          (l4recvLoop ev fuel 0 { st with pending := none })

/-- compute_checksum (maze.c lines 438-444): XOR of the first len bytes of
the frame. -/
def compute_checksum (frame : List Nat) : Nat :=
  frame.foldl Nat.xor 0

/-- The frame l2sap_sendto builds (maze.c lines 524-538): a zeroed buffer,
the 6-byte header (two opaque dst_addr bytes, the 16-bit total length in
network byte order, checksum, mbz = 0), the payload, and finally the XOR
checksum written into byte 4; only the first len + L2Headersize bytes are
transmitted. -/
def l2BuildFrame (dst : Nat) (payload : List Nat) : List Nat :=
  let total := payload.length + L2Headersize
  let pre := [dst / 256 % 256, dst % 256, total / 256 % 256, total % 256, 0, 0]
    ++ payload
  pre.set 4 (compute_checksum pre)

/-- Return value of l2sap_sendto: the number of accepted payload bytes
together with the transmitted frame, or -1. -/
inductive L2SendRet where
  | sent (len : Nat) (frame : List Nat)
  | errRet
deriving DecidableEq, Repr

/-- l2sap_sendto (maze.c lines 501-550): validates the payload length
against L2Payloadsize and L2Framesize, builds the frame, transmits it, and
returns len. -/
def l2sap_sendto (dst : Nat) (payload : List Nat) : L2SendRet :=
  if payload.length > L2Payloadsize then .errRet
  else if payload.length + L2Headersize > L2Framesize then .errRet
  else .sent payload.length (l2BuildFrame dst payload)

/-- The 16-bit length field read back from a received frame with ntohs. -/
def wireLen (frame : List Nat) : Nat :=
  frame.getD 2 0 % 256 * 256 + frame.getD 3 0 % 256

/-- Return value of l2sap_recvfrom_timeout: the payload length and the
bytes copied to the caller, L2_TIMEOUT, or -1. -/
inductive L2RecvRet where
  | ok (payloadLen : Nat) (bytes : List Nat)
  | timeoutRet
  | errRet
deriving DecidableEq, Repr

/-- The receive-and-validate path of l2sap_recvfrom_timeout (maze.c lines
576-636), applied to one received datagram: parameter validation rejects
len ≤ 0; frames shorter than L2Headersize are rejected; the received
checksum byte is saved, zeroed and the XOR recomputed over the received
bytes; payload_len = ntohs(header.len) − L2Headersize as uint16_t
arithmetic; a payload larger than the caller buffer is rejected;
otherwise payload_len bytes following the header are copied out of the
zero-initialized L2Framesize receive buffer. -/
def l2sap_recvfrom_timeout (received : List Nat) (len : Int) : L2RecvRet :=
  if len ≤ 0 then .errRet
  else if received.length < L2Headersize then .errRet
  else
    let saved := received.getD 4 0
    let recomputed := compute_checksum (received.set 4 0)
    if saved ≠ recomputed then .errRet
    else
      let payload_len := (wireLen received + 65536 - L2Headersize) % 65536
      if (payload_len : Int) > len then .errRet
      else
        let buf := received ++ List.replicate (L2Framesize - received.length) 0
        .ok payload_len ((buf.drop L2Headersize).take payload_len)

/-! ## Helper lemmas -/

@[simp] lemma addOut_ret (fs : List L4Frame) (o : SendOutcome) : (addOut fs o).ret = o.ret := rfl

@[simp] lemma addOut_st (fs : List L4Frame) (o : SendOutcome) : (addOut fs o).st = o.st := rfl

@[simp] lemma addOut_out (fs : List L4Frame) (o : SendOutcome) : (addOut fs o).out = fs ++ o.out := rfl

@[simp] lemma addROut_ret (fs : List L4Frame) (o : RecvOutcome) : (addROut fs o).ret = o.ret := rfl

@[simp] lemma addROut_st (fs : List L4Frame) (o : RecvOutcome) : (addROut fs o).st = o.st := rfl

@[simp] lemma addROut_out (fs : List L4Frame) (o : RecvOutcome) : (addROut fs o).out = fs ++ o.out := rfl

lemma ackOf_lt_two (x : Nat) (h : x < 2) : ackOf x = 1 - x := by
  interval_cases x <;> rfl

lemma ackOf_lt_two_lt (x : Nat) (h : x < 2) : ackOf x < 2 := by
  interval_cases x <;> decide

@[simp] lemma L4ack_ne_reset : L4_ACK ≠ L4_RESET := by decide

@[simp] lemma L4data_ne_reset : L4_DATA ≠ L4_RESET := by decide

@[simp] lemma L4data_ne_ack : L4_DATA ≠ L4_ACK := by decide

@[simp] lemma stashState_send_seqno (st : L4State) (h : L4Header) (bytes : List Nat) :
    (stashState st h bytes).send_seqno = st.send_seqno := by
  unfold stashState; split <;> rfl

@[simp] lemma stashState_expected_seqno (st : L4State) (h : L4Header) (bytes : List Nat) :
    (stashState st h bytes).expected_seqno = st.expected_seqno := by
  unfold stashState; split <;> rfl

/-- The send loop changes send_seqno exactly when it returns an accepted
byte count, and then by the toggle; expected_seqno is never touched. -/
lemma l4sendLoop_state (ev : Nat → L2Event) (pl : List Nat) (rl : Nat)
    (fuel idx : Nat) (st : L4State) :
    (l4sendLoop ev pl rl fuel idx st).st.expected_seqno = st.expected_seqno ∧
    (l4sendLoop ev pl rl fuel idx st).st.send_seqno =
      (match (l4sendLoop ev pl rl fuel idx st).ret with
       | .accepted _ => ackOf st.send_seqno
       | _ => st.send_seqno) := by
  induction fuel generalizing idx st with
  | zero => simp [l4sendLoop]
  | succ n ih =>
    cases hev : ev idx with
    | timeout => simpa [l4sendLoop, hev] using ih (idx+1) st
    | errEvent => simpa [l4sendLoop, hev] using ih (idx+1) st
    | frame bytes =>
      by_cases hshort : bytes.length < L4Headersize
      · simpa [l4sendLoop, hev, hshort] using ih (idx+1) st
      · by_cases hreset : (parseL4Header bytes).type = L4_RESET
        · simp [l4sendLoop, hev, hshort, hreset]
        · by_cases hack : (parseL4Header bytes).type = L4_ACK
          · by_cases hmatch :
                ((parseL4Header bytes).ackno : Int) = 1 - (st.send_seqno : Int)
            · simp [l4sendLoop, hev, hshort, hreset, hack, hmatch]
            · simpa [l4sendLoop, hev, hshort, hreset, hack, hmatch] using ih (idx+1) st
          · by_cases hdata : (parseL4Header bytes).type = L4_DATA
            · simpa [l4sendLoop, hev, hshort, hreset, hack, hdata] using
                ih (idx+1) (stashState st (parseL4Header bytes) bytes)
            · simpa [l4sendLoop, hev, hshort, hreset, hack, hdata] using ih (idx+1) st

/-- Whenever the send loop returns an accepted byte count, that count is
the rl argument (the truncated payload length). -/
lemma l4sendLoop_accepted (ev : Nat → L2Event) (pl : List Nat) (rl : Nat)
    (fuel idx : Nat) (st : L4State) (n : Nat)
    (h : (l4sendLoop ev pl rl fuel idx st).ret = .accepted n) : n = rl := by
  induction fuel generalizing idx st with
  | zero => simp [l4sendLoop] at h
  | succ m ih =>
    cases hev : ev idx with
    | timeout => exact ih (idx+1) st (by simpa [l4sendLoop, hev] using h)
    | errEvent => exact ih (idx+1) st (by simpa [l4sendLoop, hev] using h)
    | frame bytes =>
      by_cases hshort : bytes.length < L4Headersize
      · exact ih (idx+1) st (by simpa [l4sendLoop, hev, hshort] using h)
      · by_cases hreset : (parseL4Header bytes).type = L4_RESET
        · simp [l4sendLoop, hev, hshort, hreset] at h
        · by_cases hack : (parseL4Header bytes).type = L4_ACK
          · by_cases hmatch :
                ((parseL4Header bytes).ackno : Int) = 1 - (st.send_seqno : Int)
            · simp [l4sendLoop, hev, hshort, hreset, hack, hmatch] at h
              omega
            · exact ih (idx+1) st
                (by simpa [l4sendLoop, hev, hshort, hreset, hack, hmatch] using h)
          · by_cases hdata : (parseL4Header bytes).type = L4_DATA
            · exact ih (idx+1) _
                (by simpa [l4sendLoop, hev, hshort, hreset, hack, hdata] using h)
            · exact ih (idx+1) st
                (by simpa [l4sendLoop, hev, hshort, hreset, hack, hdata] using h)

/-- Every frame the send loop transmits is either the DATA frame with the
loop's payload or an ACK frame. -/
lemma l4sendLoop_out (ev : Nat → L2Event) (pl : List Nat) (rl : Nat)
    (fuel idx : Nat) (st : L4State) (f : L4Frame)
    (hf : f ∈ (l4sendLoop ev pl rl fuel idx st).out) :
    (∃ s, f = dataFrame s pl) ∨ (∃ a, f = ackFrame a) := by
  induction fuel generalizing idx st with
  | zero => simp [l4sendLoop] at hf
  | succ m ih =>
    cases hev : ev idx with
    | timeout =>
      rcases (by simpa [l4sendLoop, hev] using hf : _ ∨ _) with h | h
      · exact Or.inl ⟨st.send_seqno, h⟩
      · exact ih (idx+1) st h
    | errEvent =>
      rcases (by simpa [l4sendLoop, hev] using hf : _ ∨ _) with h | h
      · exact Or.inl ⟨st.send_seqno, h⟩
      · exact ih (idx+1) st h
    | frame bytes =>
      by_cases hshort : bytes.length < L4Headersize
      · rcases (by simpa [l4sendLoop, hev, hshort] using hf : _ ∨ _) with h | h
        · exact Or.inl ⟨st.send_seqno, h⟩
        · exact ih (idx+1) st h
      · by_cases hreset : (parseL4Header bytes).type = L4_RESET
        · rcases (by simpa [l4sendLoop, hev, hshort, hreset] using hf : _) with h
          exact Or.inl ⟨st.send_seqno, h⟩
        · by_cases hack : (parseL4Header bytes).type = L4_ACK
          · by_cases hmatch :
                ((parseL4Header bytes).ackno : Int) = 1 - (st.send_seqno : Int)
            · rcases (by simpa [l4sendLoop, hev, hshort, hreset, hack, hmatch] using hf :
                  _) with h
              exact Or.inl ⟨st.send_seqno, h⟩
            · rcases (by simpa [l4sendLoop, hev, hshort, hreset, hack, hmatch] using hf :
                  _ ∨ _) with h | h
              · exact Or.inl ⟨st.send_seqno, h⟩
              · exact ih (idx+1) st h
          · by_cases hdata : (parseL4Header bytes).type = L4_DATA
            · rcases (by
                  simpa [l4sendLoop, hev, hshort, hreset, hack, hdata] using hf :
                  _ ∨ _ ∨ _) with h | h | h
              · exact Or.inl ⟨st.send_seqno, h⟩
              · exact Or.inr ⟨ackOf (parseL4Header bytes).seqno, h⟩
              · exact ih (idx+1) _ h
            · rcases (by simpa [l4sendLoop, hev, hshort, hreset, hack, hdata] using hf :
                  _ ∨ _) with h | h
              · exact Or.inl ⟨st.send_seqno, h⟩
              · exact ih (idx+1) st h

/-- With at least one attempt remaining, the first frame the send loop
transmits is the DATA frame. -/
lemma l4sendLoop_head (ev : Nat → L2Event) (pl : List Nat) (rl : Nat)
    (fuel idx : Nat) (st : L4State) :
    (l4sendLoop ev pl rl (fuel+1) idx st).out.head? =
      some (dataFrame st.send_seqno pl) := by
  cases hev : ev idx with
  | timeout => simp [l4sendLoop, hev]
  | errEvent => simp [l4sendLoop, hev]
  | frame bytes =>
    by_cases hshort : bytes.length < L4Headersize
    · simp [l4sendLoop, hev, hshort]
    · by_cases hreset : (parseL4Header bytes).type = L4_RESET
      · simp [l4sendLoop, hev, hshort, hreset]
      · by_cases hack : (parseL4Header bytes).type = L4_ACK
        · by_cases hmatch :
              ((parseL4Header bytes).ackno : Int) = 1 - (st.send_seqno : Int)
          · simp [l4sendLoop, hev, hshort, hreset, hack, hmatch]
          · simp [l4sendLoop, hev, hshort, hreset, hack, hmatch]
        · by_cases hdata : (parseL4Header bytes).type = L4_DATA
          · simp [l4sendLoop, hev, hshort, hreset, hack, hdata]
          · simp [l4sendLoop, hev, hshort, hreset, hack, hdata]

/-- When every event is a timeout, each attempt transmits the DATA frame
once and the loop ends in L4_SEND_FAILED with the state unchanged. -/
lemma l4sendLoop_timeout (ev : Nat → L2Event) (pl : List Nat) (rl : Nat)
    (hev : ∀ i, ev i = .timeout) (fuel idx : Nat) (st : L4State) :
    l4sendLoop ev pl rl fuel idx st =
      ⟨.sendFailed, st, List.replicate fuel (dataFrame st.send_seqno pl)⟩ := by
  induction fuel generalizing idx with
  | zero => simp [l4sendLoop]
  | succ n ih =>
    simp [l4sendLoop, hev idx, ih (idx+1), addOut, List.replicate_succ]

/-- The recv loop never touches send_seqno or the pending slot, never
returns -1, and changes expected_seqno exactly when it delivers. -/
lemma l4recvLoop_state (ev : Nat → RecvEvent) (fuel idx : Nat) (st : L4State) :
    (l4recvLoop ev fuel idx st).st.send_seqno = st.send_seqno ∧
    (l4recvLoop ev fuel idx st).st.pending = st.pending ∧
    (l4recvLoop ev fuel idx st).ret ≠ some .errRet ∧
    (l4recvLoop ev fuel idx st).st.expected_seqno =
      (match (l4recvLoop ev fuel idx st).ret with
       | some (.delivered _) => ackOf st.expected_seqno
       | _ => st.expected_seqno) := by
  induction fuel generalizing idx st with
  | zero => simp [l4recvLoop]
  | succ n ih =>
    cases hev : ev idx with
    | timeout => simpa [l4recvLoop, hev] using ih (idx+1) st
    | frame bytes =>
      by_cases hshort : bytes.length < L4Headersize
      · simpa [l4recvLoop, hev, hshort] using ih (idx+1) st
      · by_cases hmbz : (parseL4Header bytes).mbz ≠ 0
        · simpa [l4recvLoop, hev, hshort, hmbz] using ih (idx+1) st
        · by_cases hreset : (parseL4Header bytes).type = L4_RESET
          · simp [l4recvLoop, hev, hshort, hmbz, hreset]
          · by_cases hdata : (parseL4Header bytes).type = L4_DATA
            · by_cases hseq : (parseL4Header bytes).seqno = st.expected_seqno
              · simp [l4recvLoop, hev, hshort, hmbz, hreset, hdata, hseq]
              · simpa [l4recvLoop, hev, hshort, hmbz, hreset, hdata, hseq] using
                  ih (idx+1) st
            · simpa [l4recvLoop, hev, hshort, hmbz, hreset, hdata] using ih (idx+1) st

/-- How l4sap_send changes the sequence numbers, as a function of its
return value. -/
lemma l4sap_send_state (st : L4State) (data : List Nat) (len : Int) (ev : Nat → L2Event) :
    (l4sap_send st data len ev).st.expected_seqno = st.expected_seqno ∧
    (l4sap_send st data len ev).st.send_seqno =
      (match (l4sap_send st data len ev).ret with
       | .accepted _ => ackOf st.send_seqno
       | _ => st.send_seqno) := by
  by_cases hlen : len ≤ 0
  · simp [l4sap_send, hlen]
  · simpa [l4sap_send, hlen] using
      l4sendLoop_state ev (data.take (min len.toNat L4Payloadsize))
        (min len.toNat L4Payloadsize) 5 0 st

/-- How l4sap_recv changes the sequence numbers, as a function of its
return value. -/
lemma l4sap_recv_state (st : L4State) (len : Int) (ev : Nat → RecvEvent) (fuel : Nat) :
    (l4sap_recv st len ev fuel).st.send_seqno = st.send_seqno ∧
    (l4sap_recv st len ev fuel).st.expected_seqno =
      (match (l4sap_recv st len ev fuel).ret with
       | some (.delivered _) => ackOf st.expected_seqno
       | _ => st.expected_seqno) := by
  by_cases hlen : len ≤ 0
  · simp [l4sap_recv, hlen]
  · cases hp : st.pending with
    | none =>
      have h := l4recvLoop_state ev fuel 0 st
      simpa [l4sap_recv, hlen, hp] using ⟨h.1, h.2.2.2⟩
    | some p =>
      by_cases hm : p.hdr.type = L4_DATA ∧ p.hdr.seqno = st.expected_seqno
      · simp [l4sap_recv, hlen, hp, hm]
      · have h := l4recvLoop_state ev fuel 0 { st with pending := none }
        simpa [l4sap_recv, hlen, hp, hm] using ⟨h.1, h.2.2.2⟩

/-- What C1 asserts about one l4sap_send call starting from state st. -/
def sendSeqnoSpec (st : L4State) (o : SendOutcome) : Prop :=
  o.st.send_seqno < 2 ∧ o.st.expected_seqno < 2 ∧
  (∀ n, o.ret = .accepted n → o.st.send_seqno = 1 - st.send_seqno) ∧
  (o.ret = .sendFailed → o.st.send_seqno = st.send_seqno) ∧
  (o.ret = .quit → o.st.send_seqno = st.send_seqno)

/-- What C1 asserts about one l4sap_recv call starting from state st. -/
def recvSeqnoSpec (st : L4State) (o : RecvOutcome) : Prop :=
  o.st.send_seqno < 2 ∧ o.st.expected_seqno < 2 ∧
  (∀ bs, o.ret = some (.delivered bs) → o.st.expected_seqno = 1 - st.expected_seqno) ∧
  (o.ret = some .quit → o.st.expected_seqno = st.expected_seqno) ∧
  (o.ret = some .errRet → o.st.expected_seqno = st.expected_seqno)

/-- C1: for every L4 SAP entity whose sequence numbers are alternating
bits, send_seqno and expected_seqno remain in {0,1}; l4sap_send toggles
send_seqno exactly once when it returns an accepted byte count and leaves
it unchanged when it returns L4_SEND_FAILED or L4_QUIT; l4sap_recv toggles
expected_seqno exactly once when it returns a delivered payload and leaves
it unchanged when it returns L4_QUIT or -1. -/
theorem C1_seqno_invariant (st : L4State)
    (hs : st.send_seqno < 2) (he : st.expected_seqno < 2)
    (data : List Nat) (len : Int) (ev : Nat → L2Event)
    (rlen : Int) (rev : Nat → RecvEvent) (fuel : Nat) :
    sendSeqnoSpec st (l4sap_send st data len ev) ∧
    recvSeqnoSpec st (l4sap_recv st rlen rev fuel) := by
  obtain ⟨hse, hss⟩ := l4sap_send_state st data len ev
  obtain ⟨hrs, hre⟩ := l4sap_recv_state st rlen rev fuel
  refine ⟨⟨?_, ?_, ?_, ?_, ?_⟩, ?_, ?_, ?_, ?_, ?_⟩
  · rw [hss]
    cases hr : (l4sap_send st data len ev).ret with
    | accepted n => simp only [hr]; exact ackOf_lt_two_lt _ hs
    | sendFailed => simp only [hr]; exact hs
    | quit => simp only [hr]; exact hs
  · rw [hse]; exact he
  · intro n h; rw [hss]; simp only [h]; exact ackOf_lt_two _ hs
  · intro h; rw [hss]; simp only [h]
  · intro h; rw [hss]; simp only [h]
  · rw [hrs]; exact hs
  · rw [hre]
    cases hr : (l4sap_recv st rlen rev fuel).ret with
    | none => simp only [hr]; exact he
    | some v =>
      cases v with
      | delivered bs => simp only [hr]; exact ackOf_lt_two_lt _ he
      | quit => simp only [hr]; exact he
      | errRet => simp only [hr]; exact he
  · intro bs h; rw [hre]; simp only [h]; exact ackOf_lt_two _ he
  · intro h; rw [hre]; simp only [h]
  · intro h; rw [hre]; simp only [h]

/-- Witness for C1 at a concrete entity and concrete event streams. -/
theorem C1_seqno_invariant_witness :
    (L4State.mk 0 0 none).send_seqno < 2 ∧ (L4State.mk 0 0 none).expected_seqno < 2 ∧
    (sendSeqnoSpec ⟨0, 0, none⟩ (l4sap_send ⟨0, 0, none⟩ [42] 1 (fun _ => .timeout)) ∧
     recvSeqnoSpec ⟨0, 0, none⟩
       (l4sap_recv ⟨0, 0, none⟩ 1 (fun _ => .frame [L4_RESET, 0, 0, 0]) 1)) :=
  ⟨by decide, by decide,
   C1_seqno_invariant ⟨0, 0, none⟩ (by decide) (by decide) [42] 1 (fun _ => .timeout)
     1 (fun _ => .frame [L4_RESET, 0, 0, 0]) 1⟩

/-- Event stream for the C2 counterexample: one mismatched ACK (ackno = 0
while send_seqno = 0 expects ackno = 1), then a matching ACK. -/
def evC2 : Nat → L2Event := fun i =>
  if i = 0 then .frame [L4_ACK, 0, 0, 0] else .frame [L4_ACK, 0, 1, 0]

/-- C2 counterexample: starting a send of one byte from seqno 0, a single
mismatched ACK makes the sender retransmit the DATA frame (two copies in
the output) before the matching ACK ends the call; and a stream of only
mismatched ACKs exhausts all 5 bounded attempts without any timeout,
ending in L4_SEND_FAILED.  Both refute that a mismatched ACK keeps the
sender waiting within the same attempt. -/
theorem C2_counterexample :
    l4sap_send ⟨0, 0, none⟩ [42] 1 evC2 =
      ⟨.accepted 1, ⟨1, 0, none⟩, [dataFrame 0 [42], dataFrame 0 [42]]⟩ ∧
    l4sap_send ⟨0, 0, none⟩ [42] 1 (fun _ => .frame [L4_ACK, 0, 0, 0]) =
      ⟨.sendFailed, ⟨0, 0, none⟩, List.replicate 5 (dataFrame 0 [42])⟩ := by
  constructor <;> rfl

/-- C2 amended: during l4sap_send, receiving an L4_ACK with a mismatched
ackno, or an L4_DATA frame from the peer (after ACKing it and stashing it
into the empty pending slot), ends the current attempt: the event consumes
one of the bounded transmission attempts, and if attempts remain the very
next frame transmitted is a retransmission of the DATA frame. -/
theorem C2_amended_attempt_consumed (ev : Nat → L2Event) (pl : List Nat) (rl : Nat)
    (fuel idx : Nat) (st : L4State) (bytes : List Nat)
    (hb : ev idx = .frame bytes) (hlen : L4Headersize ≤ bytes.length) :
    ((parseL4Header bytes).type = L4_ACK →
      ((parseL4Header bytes).ackno : Int) ≠ 1 - (st.send_seqno : Int) →
      l4sendLoop ev pl rl (fuel+1) idx st =
        addOut [dataFrame st.send_seqno pl] (l4sendLoop ev pl rl fuel (idx+1) st)) ∧
    ((parseL4Header bytes).type = L4_DATA →
      l4sendLoop ev pl rl (fuel+1) idx st =
        addOut [dataFrame st.send_seqno pl, ackFrame (ackOf (parseL4Header bytes).seqno)]
          (l4sendLoop ev pl rl fuel (idx+1) (stashState st (parseL4Header bytes) bytes))) ∧
    (∀ m, fuel = m + 1 → ∀ st2 : L4State,
      (l4sendLoop ev pl rl fuel (idx+1) st2).out.head? =
        some (dataFrame st2.send_seqno pl)) := by
  refine ⟨?_, ?_, ?_⟩
  · intro hack hmatch
    simp [l4sendLoop, hb, Nat.not_lt.mpr hlen, hack, hmatch]
  · intro hdata
    simp [l4sendLoop, hb, Nat.not_lt.mpr hlen, hdata]
  · intro m hm st2
    subst hm
    exact l4sendLoop_head ev pl rl m (idx+1) st2

/-- Witness for the amended C2 at a concrete mismatched ACK. -/
theorem C2_amended_attempt_consumed_witness :
    ((fun _ => L2Event.frame [L4_ACK, 0, 0, 0]) 0 = .frame [L4_ACK, 0, 0, 0]) ∧
    L4Headersize ≤ ([L4_ACK, 0, 0, 0] : List Nat).length ∧
    (((parseL4Header [L4_ACK, 0, 0, 0]).type = L4_ACK →
      ((parseL4Header [L4_ACK, 0, 0, 0]).ackno : Int) ≠
        1 - ((L4State.mk 0 0 none).send_seqno : Int) →
      l4sendLoop (fun _ => .frame [L4_ACK, 0, 0, 0]) [5] 1 2 0 ⟨0, 0, none⟩ =
        addOut [dataFrame 0 [5]]
          (l4sendLoop (fun _ => .frame [L4_ACK, 0, 0, 0]) [5] 1 1 1 ⟨0, 0, none⟩)) ∧
     ((parseL4Header [L4_ACK, 0, 0, 0]).type = L4_DATA →
      l4sendLoop (fun _ => .frame [L4_ACK, 0, 0, 0]) [5] 1 2 0 ⟨0, 0, none⟩ =
        addOut [dataFrame 0 [5],
                ackFrame (ackOf (parseL4Header [L4_ACK, 0, 0, 0]).seqno)]
          (l4sendLoop (fun _ => .frame [L4_ACK, 0, 0, 0]) [5] 1 1 1
            (stashState ⟨0, 0, none⟩ (parseL4Header [L4_ACK, 0, 0, 0]) [L4_ACK, 0, 0, 0]))) ∧
     (∀ m, 1 = m + 1 → ∀ st2 : L4State,
       (l4sendLoop (fun _ => L2Event.frame [L4_ACK, 0, 0, 0]) [5] 1 1 1 st2).out.head? =
         some (dataFrame st2.send_seqno [5]))) :=
  ⟨rfl, by decide,
   C2_amended_attempt_consumed (fun _ => .frame [L4_ACK, 0, 0, 0]) [5] 1 1 0
     ⟨0, 0, none⟩ [L4_ACK, 0, 0, 0] rfl (by decide)⟩

/-- C3: if every per-attempt wait ends in timeout, l4sap_send transmits
the DATA frame exactly 5 times (the output is exactly five copies of it)
and returns L4_SEND_FAILED with the state unchanged. -/
theorem C3_retransmit_bound (st : L4State) (data : List Nat) (len : Int)
    (hlen : 0 < len) (ev : Nat → L2Event) (hev : ∀ i, ev i = .timeout) :
    l4sap_send st data len ev =
      ⟨.sendFailed, st,
       List.replicate 5 (dataFrame st.send_seqno
         (data.take (min len.toNat L4Payloadsize)))⟩ ∧
    (l4sap_send st data len ev).out.length = 5 := by
  have h5 := l4sendLoop_timeout ev (data.take (min len.toNat L4Payloadsize))
    (min len.toNat L4Payloadsize) hev 5 0 st
  have hnle : ¬ len ≤ 0 := not_le.mpr hlen
  constructor
  · simp only [l4sap_send, hnle, if_false]
    exact h5
  · simp only [l4sap_send, hnle, if_false, h5]
    rfl

/-- Witness for C3 on a concrete all-timeout stream. -/
theorem C3_retransmit_bound_witness :
    (0 : Int) < 1 ∧ (∀ i : Nat, (fun _ => L2Event.timeout) i = L2Event.timeout) ∧
    (l4sap_send ⟨0, 0, none⟩ [7] 1 (fun _ => .timeout) =
      ⟨.sendFailed, ⟨0, 0, none⟩,
       List.replicate 5 (dataFrame 0 (([7] : List Nat).take
         (min (1 : Int).toNat L4Payloadsize)))⟩ ∧
     (l4sap_send ⟨0, 0, none⟩ [7] 1 (fun _ => .timeout)).out.length = 5) :=
  ⟨by decide, fun _ => rfl,
   C3_retransmit_bound ⟨0, 0, none⟩ [7] 1 (by decide) (fun _ => .timeout) (fun _ => rfl)⟩

/-- C4: for every l4sap_recv call with a non-empty pending slot (legal
alternating-bit seqnos): if the pending frame has type L4_DATA and seqno
equal to expected_seqno, then min(pending_len, len) bytes are copied to
the caller, an ACK with ackno = 1 − pending.seqno is emitted,
expected_seqno is toggled, the pending slot is cleared, and the copied
byte count is returned; otherwise an ACK with ackno = 1 − pending.seqno
is emitted, the pending slot is cleared, and the call falls through to
the network wait loop. -/
theorem C4_pending_slot (st : L4State) (p : PendingSlot) (hp : st.pending = some p)
    (len : Int) (hlen : 0 < len) (ev : Nat → RecvEvent) (fuel : Nat)
    (hseq : p.hdr.seqno < 2) (hexp : st.expected_seqno < 2) :
    (p.hdr.type = L4_DATA ∧ p.hdr.seqno = st.expected_seqno →
      l4sap_recv st len ev fuel =
        ⟨some (.delivered (p.payload.take (min p.payload.length len.toNat))),
         { st with expected_seqno := 1 - st.expected_seqno, pending := none },
         [ackFrame (1 - p.hdr.seqno)]⟩ ∧
      (p.payload.take (min p.payload.length len.toNat)).length =
        min p.payload.length len.toNat) ∧
    (¬(p.hdr.type = L4_DATA ∧ p.hdr.seqno = st.expected_seqno) →
      l4sap_recv st len ev fuel =
        addROut [ackFrame (1 - p.hdr.seqno)]
          (l4recvLoop ev fuel 0 { st with pending := none })) := by
  have hnle : ¬ len ≤ 0 := not_le.mpr hlen
  constructor
  · intro hm
    constructor
    · simp [l4sap_recv, hnle, hp, hm, ackOf_lt_two _ hseq, ackOf_lt_two _ hexp]
    · simp [List.length_take]
  · intro hm
    simp [l4sap_recv, hnle, hp, hm, ackOf_lt_two _ hseq]

/-- Witness for C4 at a concrete pending DATA frame. -/
theorem C4_pending_slot_witness :
    (L4State.mk 0 0 (some ⟨⟨L4_DATA, 0, 0, 0⟩, [1, 2, 3]⟩)).pending =
      some ⟨⟨L4_DATA, 0, 0, 0⟩, [1, 2, 3]⟩ ∧
    (0 : Int) < 2 ∧ (PendingSlot.mk ⟨L4_DATA, 0, 0, 0⟩ [1, 2, 3]).hdr.seqno < 2 ∧
    (L4State.mk 0 0 (some ⟨⟨L4_DATA, 0, 0, 0⟩, [1, 2, 3]⟩)).expected_seqno < 2 ∧
    ((PendingSlot.mk ⟨L4_DATA, 0, 0, 0⟩ [1, 2, 3]).hdr.type = L4_DATA ∧
       (PendingSlot.mk ⟨L4_DATA, 0, 0, 0⟩ [1, 2, 3]).hdr.seqno =
         (L4State.mk 0 0 (some ⟨⟨L4_DATA, 0, 0, 0⟩, [1, 2, 3]⟩)).expected_seqno →
      l4sap_recv ⟨0, 0, some ⟨⟨L4_DATA, 0, 0, 0⟩, [1, 2, 3]⟩⟩ 2 (fun _ => .timeout) 0 =
        ⟨some (.delivered (([1, 2, 3] : List Nat).take (min 3 (2 : Int).toNat))),
         ⟨0, 1, none⟩, [ackFrame 1]⟩ ∧
      (([1, 2, 3] : List Nat).take (min 3 (2 : Int).toNat)).length =
        min ([1, 2, 3] : List Nat).length (2 : Int).toNat) ∧
    (¬((PendingSlot.mk ⟨L4_DATA, 0, 0, 0⟩ [1, 2, 3]).hdr.type = L4_DATA ∧
       (PendingSlot.mk ⟨L4_DATA, 0, 0, 0⟩ [1, 2, 3]).hdr.seqno =
         (L4State.mk 0 0 (some ⟨⟨L4_DATA, 0, 0, 0⟩, [1, 2, 3]⟩)).expected_seqno) →
      l4sap_recv ⟨0, 0, some ⟨⟨L4_DATA, 0, 0, 0⟩, [1, 2, 3]⟩⟩ 2 (fun _ => .timeout) 0 =
        addROut [ackFrame 1] (l4recvLoop (fun _ => .timeout) 0 0 ⟨0, 0, none⟩)) := by
  refine ⟨rfl, by decide, by decide, by decide, ?_⟩
  have h := C4_pending_slot ⟨0, 0, some ⟨⟨L4_DATA, 0, 0, 0⟩, [1, 2, 3]⟩⟩
    ⟨⟨L4_DATA, 0, 0, 0⟩, [1, 2, 3]⟩ rfl 2 (by decide) (fun _ => .timeout) 0
    (by decide) (by decide)
  exact h

/-- C5 counterexample: l4sap_send's ACK-wait path performs no mbz check.
A matching ACK whose mbz field is 7 is accepted: the call returns the
accepted byte count and send_seqno is toggled, so the frame was neither
dropped nor free of state change. -/
theorem C5_counterexample :
    l4sap_send ⟨0, 0, none⟩ [9] 1 (fun _ => .frame [L4_ACK, 0, 1, 7]) =
      ⟨.accepted 1, ⟨1, 0, none⟩, [dataFrame 0 [9]]⟩ := by
  rfl

/-- C5 amended: every received L4 frame whose mbz field is nonzero is
dropped by l4sap_recv's network loop without any state change,
acknowledgement, delivery, or return to the caller (the loop just moves
to the next event); l4sap_send's receive path does not check mbz. -/
theorem C5_amended_recv_drops_mbz (ev : Nat → RecvEvent) (fuel idx : Nat)
    (st : L4State) (bytes : List Nat)
    (hb : ev idx = .frame bytes) (hlen : L4Headersize ≤ bytes.length)
    (hmbz : (parseL4Header bytes).mbz ≠ 0) :
    l4recvLoop ev (fuel+1) idx st = l4recvLoop ev fuel (idx+1) st := by
  simp [l4recvLoop, hb, Nat.not_lt.mpr hlen, hmbz]

/-- Witness for the amended C5 on a RESET frame with mbz = 5, which the
recv loop drops. -/
theorem C5_amended_recv_drops_mbz_witness :
    ((fun _ => RecvEvent.frame [L4_RESET, 0, 0, 5]) 0 = .frame [L4_RESET, 0, 0, 5]) ∧
    L4Headersize ≤ ([L4_RESET, 0, 0, 5] : List Nat).length ∧
    (parseL4Header [L4_RESET, 0, 0, 5]).mbz ≠ 0 ∧
    l4recvLoop (fun _ => .frame [L4_RESET, 0, 0, 5]) 1 0 ⟨0, 0, none⟩ =
      l4recvLoop (fun _ => .frame [L4_RESET, 0, 0, 5]) 0 1 ⟨0, 0, none⟩ :=
  ⟨rfl, by decide, by decide,
   C5_amended_recv_drops_mbz (fun _ => .frame [L4_RESET, 0, 0, 5]) 0 0 ⟨0, 0, none⟩
     [L4_RESET, 0, 0, 5] rfl (by decide) (by decide)⟩

/-- C6: receiving an L4_RESET frame during l4sap_send's ACK wait or
l4sap_recv's network loop (well-formed there: mbz = 0) makes the call
return L4_QUIT immediately: no payload is delivered, the state is
unchanged, and no frame is emitted in response (the send side's output
holds only the DATA transmission that preceded the RESET). -/
theorem C6_reset_quit (ev : Nat → L2Event) (pl : List Nat) (rl : Nat)
    (fuel idx : Nat) (st : L4State) (bytes : List Nat)
    (hb : ev idx = .frame bytes) (hlen : L4Headersize ≤ bytes.length)
    (htype : (parseL4Header bytes).type = L4_RESET)
    (rev : Nat → RecvEvent) (fuel2 idx2 : Nat) (st2 : L4State) (bytes2 : List Nat)
    (hb2 : rev idx2 = .frame bytes2) (hlen2 : L4Headersize ≤ bytes2.length)
    (hmbz2 : (parseL4Header bytes2).mbz = 0)
    (htype2 : (parseL4Header bytes2).type = L4_RESET) :
    l4sendLoop ev pl rl (fuel+1) idx st = ⟨.quit, st, [dataFrame st.send_seqno pl]⟩ ∧
    l4recvLoop rev (fuel2+1) idx2 st2 = ⟨some .quit, st2, []⟩ := by
  constructor
  · simp [l4sendLoop, hb, Nat.not_lt.mpr hlen, htype]
  · simp [l4recvLoop, hb2, Nat.not_lt.mpr hlen2, hmbz2, htype2]

/-- Witness for C6 on concrete RESET frames in both directions. -/
theorem C6_reset_quit_witness :
    ((fun _ => L2Event.frame [L4_RESET, 0, 0, 0]) 0 = .frame [L4_RESET, 0, 0, 0]) ∧
    L4Headersize ≤ ([L4_RESET, 0, 0, 0] : List Nat).length ∧
    (parseL4Header [L4_RESET, 0, 0, 0]).type = L4_RESET ∧
    ((fun _ => RecvEvent.frame [L4_RESET, 0, 0, 0]) 0 = .frame [L4_RESET, 0, 0, 0]) ∧
    (parseL4Header [L4_RESET, 0, 0, 0]).mbz = 0 ∧
    (l4sendLoop (fun _ => .frame [L4_RESET, 0, 0, 0]) [8] 1 1 0 ⟨0, 0, none⟩ =
       ⟨.quit, ⟨0, 0, none⟩, [dataFrame 0 [8]]⟩ ∧
     l4recvLoop (fun _ => .frame [L4_RESET, 0, 0, 0]) 1 0 ⟨0, 1, none⟩ =
       ⟨some .quit, ⟨0, 1, none⟩, []⟩) :=
  ⟨rfl, by decide, by decide, rfl, by decide,
   C6_reset_quit (fun _ => .frame [L4_RESET, 0, 0, 0]) [8] 1 0 0 ⟨0, 0, none⟩
     [L4_RESET, 0, 0, 0] rfl (by decide) (by decide)
     (fun _ => .frame [L4_RESET, 0, 0, 0]) 0 0 ⟨0, 1, none⟩
     [L4_RESET, 0, 0, 0] rfl (by decide) (by decide) (by decide)⟩

lemma nxor_assoc (a b c : Nat) : Nat.xor (Nat.xor a b) c = Nat.xor a (Nat.xor b c) :=
  Nat.xor_assoc a b c

lemma nxor_comm (a b : Nat) : Nat.xor a b = Nat.xor b a := Nat.xor_comm a b

lemma nxor_self (a : Nat) : Nat.xor a a = 0 := Nat.xor_self a

lemma nxor_zero_left (a : Nat) : Nat.xor 0 a = a := Nat.zero_xor a

lemma foldl_xor_pull (l : List Nat) (b m : Nat) :
    l.foldl Nat.xor (Nat.xor b m) = Nat.xor (l.foldl Nat.xor b) m := by
  induction l generalizing b with
  | nil => simp
  | cons a t ih =>
    simp only [List.foldl_cons]
    rw [show Nat.xor (Nat.xor b m) a = Nat.xor (Nat.xor b a) m by
      rw [nxor_assoc, nxor_comm m a, ← nxor_assoc]]
    exact ih (Nat.xor b a)

/-- XORing one element of a list with a mask XORs the folded XOR of the
whole list with the same mask. -/
lemma foldl_xor_set (l : List Nat) (i : Nat) (hi : i < l.length) (m init : Nat) :
    (l.set i (Nat.xor (l.getD i 0) m)).foldl Nat.xor init =
      Nat.xor (l.foldl Nat.xor init) m := by
  induction l generalizing i init with
  | nil => simp at hi
  | cons a t ih =>
    cases i with
    | zero =>
      simp only [List.getD_cons_zero, List.set_cons_zero, List.foldl_cons]
      rw [← nxor_assoc]
      exact foldl_xor_pull t (Nat.xor init a) m
    | succ j =>
      simp only [List.getD_cons_succ, List.set_cons_succ, List.foldl_cons]
      exact ih j (by simpa using hi) (Nat.xor init a)

lemma xor_two_pow_ne (x b : Nat) : Nat.xor x (2 ^ b) ≠ x := by
  intro h
  have h2 : (2 : Nat) ^ b = 0 := by
    have hc := congrArg (Nat.xor x) h
    rwa [← nxor_assoc, nxor_self, nxor_zero_left] at hc
  exact absurd h2 (by positivity)

/-- Flipping exactly one bit anywhere in a frame whose saved checksum
matches the XOR recomputed with the checksum byte zeroed makes the two
disagree. -/
lemma checksum_flip_detected (t : List Nat) (h6 : 6 ≤ t.length)
    (hok : t.getD 4 0 = compute_checksum (t.set 4 0))
    (k b : Nat) (hk : k < t.length) :
    (t.set k (Nat.xor (t.getD k 0) (2 ^ b))).getD 4 0 ≠
      compute_checksum ((t.set k (Nat.xor (t.getD k 0) (2 ^ b))).set 4 0) := by
  have h4 : 4 < t.length := by omega
  by_cases hk4 : k = 4
  · subst hk4
    have hgd : (t.set 4 (Nat.xor (t.getD 4 0) (2 ^ b))).getD 4 0 =
        Nat.xor (t.getD 4 0) (2 ^ b) := by
      rw [List.getD_eq_getElem _ _ (by simpa using h4)]
      exact List.getElem_set_self _
    rw [hgd, List.set_set, ← hok]
    exact xor_two_pow_ne _ b
  · have hgd : (t.set k (Nat.xor (t.getD k 0) (2 ^ b))).getD 4 0 = t.getD 4 0 := by
      rw [List.getD_eq_getElem _ _ (by simpa using h4),
        List.getElem_set_ne (by omega : k ≠ 4), ← List.getD_eq_getElem _ _ h4]
    have hgdk : (t.set 4 0).getD k 0 = t.getD k 0 := by
      rw [List.getD_eq_getElem _ _ (by simpa using hk),
        List.getElem_set_ne (by omega : 4 ≠ k), ← List.getD_eq_getElem _ _ hk]
    have hcomm : (t.set k (Nat.xor (t.getD k 0) (2 ^ b))).set 4 0 =
        (t.set 4 0).set k (Nat.xor ((t.set 4 0).getD k 0) (2 ^ b)) := by
      rw [hgdk]
      exact List.set_comm _ _ t hk4
    rw [hgd, hcomm, compute_checksum,
      foldl_xor_set (t.set 4 0) k (by simpa using hk) (2 ^ b) 0, ← compute_checksum, ← hok]
    exact (xor_two_pow_ne _ b).symm

/-- The frame built by l2sap_sendto written out byte by byte. -/
lemma l2BuildFrame_eq (dst : Nat) (payload : List Nat) :
    l2BuildFrame dst payload =
      dst / 256 % 256 :: dst % 256 :: (payload.length + 6) / 256 % 256 ::
      (payload.length + 6) % 256 ::
      compute_checksum (dst / 256 % 256 :: dst % 256 ::
        (payload.length + 6) / 256 % 256 :: (payload.length + 6) % 256 ::
        0 :: 0 :: payload) :: 0 :: payload := by
  simp [l2BuildFrame, L2Headersize, List.set]

lemma drop6_cons (a b c d e f : Nat) (l : List Nat) :
    List.drop 6 (a :: b :: c :: d :: e :: f :: l) = l := rfl

/-- Validating an untampered frame as built by l2sap_sendto succeeds and
returns the original payload. -/
lemma l2recv_ok (k1 k2 : Nat) (payload : List Nat) (blen : Int)
    (hb1 : 1 ≤ blen) (hb2 : (payload.length : Int) ≤ blen)
    (hlen : payload.length ≤ L2Payloadsize) :
    l2sap_recvfrom_timeout
      (k1 :: k2 :: (payload.length + 6) / 256 % 256 :: (payload.length + 6) % 256 ::
       compute_checksum (k1 :: k2 :: (payload.length + 6) / 256 % 256 ::
         (payload.length + 6) % 256 :: 0 :: 0 :: payload) :: 0 :: payload) blen =
      .ok payload.length payload := by
  have h0 : ¬ blen ≤ 0 := by omega
  have hL : payload.length ≤ 250 := by
    simpa [L2Payloadsize, L2Framesize, L2Headersize] using hlen
  have hw : wireLen (k1 :: k2 :: (payload.length + 6) / 256 % 256 ::
      (payload.length + 6) % 256 ::
      compute_checksum (k1 :: k2 :: (payload.length + 6) / 256 % 256 ::
        (payload.length + 6) % 256 :: 0 :: 0 :: payload) :: 0 :: payload) =
      payload.length + 6 := by
    simp [wireLen]
    omega
  have hpl : (payload.length + 6 + 65536 - 6) % 65536 = payload.length := by
    omega
  simp only [l2sap_recvfrom_timeout, L2Headersize, h0, if_false, hw, hpl]
  split_ifs with hlen6 hc hgt
  · exfalso
    simp only [List.length_cons] at hlen6
    omega
  · exfalso
    apply hc
    rfl
  · exfalso
    omega
  · simp only [List.cons_append]
    rw [drop6_cons, List.take_left]

/-- C7 counterexample: the frame built from the empty payload (len = 0 is
accepted by l2sap_sendto), delivered unmodified to l2sap_recvfrom_timeout
with a caller buffer of 0 ≥ len bytes, is rejected by the entry parameter
validation (len ≤ 0 returns -1), so the call does not return len. -/
theorem C7_counterexample :
    l2sap_sendto 0 [] = .sent 0 (l2BuildFrame 0 []) ∧
    l2sap_recvfrom_timeout (l2BuildFrame 0 []) 0 = .errRet ∧
    (L2RecvRet.errRet : L2RecvRet) ≠ .ok 0 [] := by
  refine ⟨rfl, rfl, by decide⟩

/-- C7 amended: round-trip at L2 for every payload of length
0 ≤ len ≤ L2Payloadsize and every caller buffer of at least len bytes and
of positive size: the frame built and transmitted by l2sap_sendto, when
delivered unmodified to l2sap_recvfrom_timeout, passes the checksum
verification (the saved checksum equals the XOR recomputed with the
checksum field zeroed) and the call returns len with the caller buffer
holding exactly the original payload bytes. -/
theorem C7_l2_roundtrip (dst : Nat) (payload : List Nat)
    (hlen : payload.length ≤ L2Payloadsize) (hbytes : ∀ b ∈ payload, b < 256)
    (blen : Int) (hb1 : 1 ≤ blen) (hb2 : (payload.length : Int) ≤ blen) :
    l2sap_sendto dst payload = .sent payload.length (l2BuildFrame dst payload) ∧
    (l2BuildFrame dst payload).getD 4 0 =
      compute_checksum ((l2BuildFrame dst payload).set 4 0) ∧
    l2sap_recvfrom_timeout (l2BuildFrame dst payload) blen =
      .ok payload.length payload := by
  have hL : payload.length ≤ 250 := by
    simpa [L2Payloadsize, L2Framesize, L2Headersize] using hlen
  refine ⟨?_, ?_, ?_⟩
  · simp only [l2sap_sendto]
    rw [if_neg (by omega : ¬ payload.length > L2Payloadsize),
      if_neg (by simp only [L2Headersize, L2Framesize]; omega :
        ¬ payload.length + L2Headersize > L2Framesize)]
  · rw [l2BuildFrame_eq]
    rfl
  · rw [l2BuildFrame_eq]
    exact l2recv_ok (dst / 256 % 256) (dst % 256) payload blen hb1 hb2 hlen

/-- Witness for the amended C7 on a concrete two-byte payload. -/
theorem C7_l2_roundtrip_witness :
    ([104, 105] : List Nat).length ≤ L2Payloadsize ∧
    (∀ b ∈ ([104, 105] : List Nat), b < 256) ∧
    (1 : Int) ≤ 2 ∧ ((([104, 105] : List Nat).length : Int) ≤ 2) ∧
    (l2sap_sendto 777 [104, 105] = .sent 2 (l2BuildFrame 777 [104, 105]) ∧
     (l2BuildFrame 777 [104, 105]).getD 4 0 =
       compute_checksum ((l2BuildFrame 777 [104, 105]).set 4 0) ∧
     l2sap_recvfrom_timeout (l2BuildFrame 777 [104, 105]) 2 = .ok 2 [104, 105]) :=
  ⟨by decide, by decide, by decide, by decide,
   C7_l2_roundtrip 777 [104, 105] (by decide) (by decide) 2 (by decide) (by decide)⟩

/-- C8: for every L2 frame whose saved checksum matches the recomputed XOR
(as every frame built by l2sap_sendto does) and every flip of exactly one
bit anywhere in the transmitted bytes, l2sap_recvfrom_timeout's recomputed
XOR checksum differs from the received checksum field and the frame is
discarded with return value -1 (for every caller buffer length). -/
theorem C8_checksum_soundness (t : List Nat) (h6 : L2Headersize ≤ t.length)
    (hok : t.getD 4 0 = compute_checksum (t.set 4 0))
    (k b : Nat) (hk : k < t.length) (hb : b < 8) (blen : Int) :
    (t.set k (Nat.xor (t.getD k 0) (2 ^ b))).getD 4 0 ≠
      compute_checksum ((t.set k (Nat.xor (t.getD k 0) (2 ^ b))).set 4 0) ∧
    l2sap_recvfrom_timeout (t.set k (Nat.xor (t.getD k 0) (2 ^ b))) blen = .errRet := by
  have h6' : 6 ≤ t.length := by simpa [L2Headersize] using h6
  have hne := checksum_flip_detected t h6' hok k b hk
  refine ⟨hne, ?_⟩
  by_cases h0 : blen ≤ 0
  · simp [l2sap_recvfrom_timeout, h0]
  · have hlen' : ¬ ((t.set k (Nat.xor (t.getD k 0) (2 ^ b))).length < L2Headersize) := by
      simp only [List.length_set, L2Headersize]
      omega
    simp only [l2sap_recvfrom_timeout, if_neg h0, if_neg hlen', if_pos hne]

/-- Witness for C8: flipping bit 2 of the last byte of a concrete frame
built by l2sap_sendto makes the receiver discard it. -/
theorem C8_checksum_soundness_witness :
    L2Headersize ≤ (l2BuildFrame 3 [7, 8]).length ∧
    (l2BuildFrame 3 [7, 8]).getD 4 0 =
      compute_checksum ((l2BuildFrame 3 [7, 8]).set 4 0) ∧
    7 < (l2BuildFrame 3 [7, 8]).length ∧ 2 < 8 ∧
    (((l2BuildFrame 3 [7, 8]).set 7
        (Nat.xor ((l2BuildFrame 3 [7, 8]).getD 7 0) (2 ^ 2))).getD 4 0 ≠
      compute_checksum (((l2BuildFrame 3 [7, 8]).set 7
        (Nat.xor ((l2BuildFrame 3 [7, 8]).getD 7 0) (2 ^ 2))).set 4 0) ∧
     l2sap_recvfrom_timeout
       ((l2BuildFrame 3 [7, 8]).set 7
         (Nat.xor ((l2BuildFrame 3 [7, 8]).getD 7 0) (2 ^ 2))) 5 = .errRet) :=
  ⟨by decide, by decide, by decide, by decide,
   C8_checksum_soundness (l2BuildFrame 3 [7, 8]) (by decide) (by decide) 7 2
     (by decide) (by decide) 5⟩

@[simp] lemma dataFrame_type (s : Nat) (pl : List Nat) :
    (dataFrame s pl).hdr.type = L4_DATA := rfl

@[simp] lemma ackFrame_type (a : Nat) : (ackFrame a).hdr.type = L4_ACK := rfl

/-- C9: l4sap_send rejects len ≤ 0 with a negative return (L4_SEND_FAILED)
and no side effects; for 1 ≤ len ≤ L4Payloadsize every transmitted DATA
frame carries exactly len payload bytes and a successful return is len;
for len > L4Payloadsize the payload is truncated to L4Payloadsize and a
successful return is L4Payloadsize. -/
theorem C9_send_len_validation (st : L4State) (data : List Nat) (ev : Nat → L2Event) :
    (∀ len : Int, len ≤ 0 → l4sap_send st data len ev = ⟨.sendFailed, st, []⟩) ∧
    (∀ len : Int, 1 ≤ len → len ≤ (L4Payloadsize : Int) → len.toNat ≤ data.length →
      (∀ f ∈ (l4sap_send st data len ev).out,
        f.hdr.type = L4_DATA → f.payload.length = len.toNat) ∧
      (∀ n, (l4sap_send st data len ev).ret = .accepted n → n = len.toNat)) ∧
    (∀ len : Int, (L4Payloadsize : Int) < len → L4Payloadsize ≤ data.length →
      (∀ f ∈ (l4sap_send st data len ev).out,
        f.hdr.type = L4_DATA → f.payload.length = L4Payloadsize) ∧
      (∀ n, (l4sap_send st data len ev).ret = .accepted n → n = L4Payloadsize)) := by
  refine ⟨?_, ?_, ?_⟩
  · intro len h
    simp [l4sap_send, h]
  · intro len h1 h2 h3
    have hnle : ¬ len ≤ 0 := by omega
    have htl : min len.toNat L4Payloadsize = len.toNat := by omega
    constructor
    · intro f hf hdf
      have hf' : f ∈ (l4sendLoop ev (data.take (min len.toNat L4Payloadsize))
          (min len.toNat L4Payloadsize) 5 0 st).out := by
        simpa [l4sap_send, hnle] using hf
      rcases l4sendLoop_out ev _ _ 5 0 st f hf' with ⟨s, rfl⟩ | ⟨a, rfl⟩
      · simp only [dataFrame, List.length_take, htl]
        omega
      · exact absurd (by simpa using hdf) L4data_ne_ack.symm
    · intro n hn
      have hr := l4sendLoop_accepted ev (data.take (min len.toNat L4Payloadsize))
        (min len.toNat L4Payloadsize) 5 0 st n (by simpa [l4sap_send, hnle] using hn)
      omega
  · intro len h1 h3
    have hnle : ¬ len ≤ 0 := by omega
    have htl : min len.toNat L4Payloadsize = L4Payloadsize := by omega
    constructor
    · intro f hf hdf
      have hf' : f ∈ (l4sendLoop ev (data.take (min len.toNat L4Payloadsize))
          (min len.toNat L4Payloadsize) 5 0 st).out := by
        simpa [l4sap_send, hnle] using hf
      rcases l4sendLoop_out ev _ _ 5 0 st f hf' with ⟨s, rfl⟩ | ⟨a, rfl⟩
      · simp only [dataFrame, List.length_take, htl]
        omega
      · exact absurd (by simpa using hdf) L4data_ne_ack.symm
    · intro n hn
      have hr := l4sendLoop_accepted ev (data.take (min len.toNat L4Payloadsize))
        (min len.toNat L4Payloadsize) 5 0 st n (by simpa [l4sap_send, hnle] using hn)
      omega

/-- Witness for C9 at concrete lengths -3, 1 and L4Payloadsize + 5. -/
theorem C9_send_len_validation_witness :
    ((-3 : Int) ≤ 0 ∧
     l4sap_send ⟨0, 0, none⟩ (List.replicate 300 9) (-3) (fun _ => .timeout) =
       ⟨.sendFailed, ⟨0, 0, none⟩, []⟩) ∧
    ((1 : Int) ≤ 1 ∧ (1 : Int) ≤ (L4Payloadsize : Int) ∧
     (1 : Int).toNat ≤ (List.replicate 300 9).length ∧
     (∀ f ∈ (l4sap_send ⟨0, 0, none⟩ (List.replicate 300 9) 1 (fun _ => .timeout)).out,
        f.hdr.type = L4_DATA → f.payload.length = (1 : Int).toNat) ∧
     (∀ n, (l4sap_send ⟨0, 0, none⟩ (List.replicate 300 9) 1 (fun _ => .timeout)).ret =
        .accepted n → n = (1 : Int).toNat)) ∧
    ((L4Payloadsize : Int) < (L4Payloadsize : Int) + 5 ∧
     L4Payloadsize ≤ (List.replicate 300 9).length ∧
     (∀ f ∈ (l4sap_send ⟨0, 0, none⟩ (List.replicate 300 9) ((L4Payloadsize : Int) + 5)
         (fun _ => .timeout)).out,
        f.hdr.type = L4_DATA → f.payload.length = L4Payloadsize) ∧
     (∀ n, (l4sap_send ⟨0, 0, none⟩ (List.replicate 300 9) ((L4Payloadsize : Int) + 5)
         (fun _ => .timeout)).ret = .accepted n → n = L4Payloadsize)) := by
  have hP : L4Payloadsize = 246 := rfl
  have hR : (List.replicate 300 9 : List Nat).length = 300 := List.length_replicate _ _
  have h := C9_send_len_validation ⟨0, 0, none⟩ (List.replicate 300 9) (fun _ => .timeout)
  refine ⟨⟨by decide, h.1 (-3) (by decide)⟩, ?_, ?_⟩
  · have h2 := h.2.1 1 (by decide) (by omega) (by omega)
    exact ⟨by decide, by omega, by omega, h2.1, h2.2⟩
  · have h3 := h.2.2 ((L4Payloadsize : Int) + 5) (by omega) (by omega)
    exact ⟨by omega, by omega, h3.1, h3.2⟩

/-- C10: in l4sap_recv's network loop, a DATA frame with the expected
seqno delivers exactly payload_len = recv_len − L4Headersize bytes and the
loop result does not depend on the caller-supplied buffer length len at
all; in particular, whenever the frame payload exceeds len, more than len
bytes are written into the caller's buffer (unlike the pending-slot path,
which clamps to min(pending_len, len)). -/
theorem C10_recv_no_clamp (ev : Nat → RecvEvent) (fuel idx : Nat) (st : L4State)
    (bytes : List Nat) (hb : ev idx = .frame bytes) (hlen : L4Headersize ≤ bytes.length)
    (hmbz : (parseL4Header bytes).mbz = 0)
    (htype : (parseL4Header bytes).type = L4_DATA)
    (hseq : (parseL4Header bytes).seqno = st.expected_seqno) :
    l4recvLoop ev (fuel+1) idx st =
      ⟨some (.delivered (bytes.drop L4Headersize)),
       { st with expected_seqno := ackOf st.expected_seqno },
       [ackFrame (ackOf (parseL4Header bytes).seqno)]⟩ ∧
    (bytes.drop L4Headersize).length = bytes.length - L4Headersize ∧
    (∀ len : Nat, len < bytes.length - L4Headersize →
      len < (bytes.drop L4Headersize).length) ∧
    (∀ len1 len2 : Int, 0 < len1 → 0 < len2 → st.pending = none → ∀ f : Nat,
      l4sap_recv st len1 ev f = l4sap_recv st len2 ev f) := by
  refine ⟨?_, ?_, ?_, ?_⟩
  · simp [l4recvLoop, hb, Nat.not_lt.mpr hlen, hmbz, htype, hseq]
  · simp
  · intro len h
    simpa using h
  · intro len1 len2 h1 h2 hpend f
    simp [l4sap_recv, not_le.mpr h1, not_le.mpr h2, hpend]

/-- Witness for C10 on a concrete 5-byte-payload DATA frame. -/
theorem C10_recv_no_clamp_witness :
    ((fun _ => RecvEvent.frame [L4_DATA, 0, 0, 0, 9, 9, 9, 9, 9]) 0 =
      .frame [L4_DATA, 0, 0, 0, 9, 9, 9, 9, 9]) ∧
    L4Headersize ≤ ([L4_DATA, 0, 0, 0, 9, 9, 9, 9, 9] : List Nat).length ∧
    (parseL4Header [L4_DATA, 0, 0, 0, 9, 9, 9, 9, 9]).mbz = 0 ∧
    (parseL4Header [L4_DATA, 0, 0, 0, 9, 9, 9, 9, 9]).type = L4_DATA ∧
    (parseL4Header [L4_DATA, 0, 0, 0, 9, 9, 9, 9, 9]).seqno =
      (L4State.mk 0 0 none).expected_seqno ∧
    (l4recvLoop (fun _ => .frame [L4_DATA, 0, 0, 0, 9, 9, 9, 9, 9]) 1 0 ⟨0, 0, none⟩ =
       ⟨some (.delivered (([L4_DATA, 0, 0, 0, 9, 9, 9, 9, 9] : List Nat).drop L4Headersize)),
        ⟨0, 1, none⟩, [ackFrame (ackOf (parseL4Header [L4_DATA, 0, 0, 0, 9, 9, 9, 9, 9]).seqno)]⟩ ∧
     (([L4_DATA, 0, 0, 0, 9, 9, 9, 9, 9] : List Nat).drop L4Headersize).length =
       ([L4_DATA, 0, 0, 0, 9, 9, 9, 9, 9] : List Nat).length - L4Headersize ∧
     (∀ len : Nat, len < ([L4_DATA, 0, 0, 0, 9, 9, 9, 9, 9] : List Nat).length - L4Headersize →
       len < (([L4_DATA, 0, 0, 0, 9, 9, 9, 9, 9] : List Nat).drop L4Headersize).length) ∧
     (∀ len1 len2 : Int, 0 < len1 → 0 < len2 → (L4State.mk 0 0 none).pending = none →
       ∀ f : Nat,
       l4sap_recv ⟨0, 0, none⟩ len1 (fun _ => .frame [L4_DATA, 0, 0, 0, 9, 9, 9, 9, 9]) f =
         l4sap_recv ⟨0, 0, none⟩ len2 (fun _ => .frame [L4_DATA, 0, 0, 0, 9, 9, 9, 9, 9]) f)) :=
  ⟨rfl, by decide, by decide, by decide, by decide,
   C10_recv_no_clamp (fun _ => .frame [L4_DATA, 0, 0, 0, 9, 9, 9, 9, 9]) 0 0 ⟨0, 0, none⟩
     [L4_DATA, 0, 0, 0, 9, 9, 9, 9, 9] rfl (by decide) (by decide) (by decide) (by decide)⟩

end MazeNet
